import Mathlib

/-! tctl bootstrap and dispatch (tool/tctl/common/tctl.go)

A shallow embedding of `Run2`, `Run`, `connectToAuthService` and `applyConfig`.

The Go code is sequential and talks to the outside world only through calls into
other packages (kingpin, lib/config, lib/auth, lib/utils, logrus).  Those calls
are kept as fields of an environment record `Env`; every call is also appended
to a log of `Event`s, so that "X is never called" and "Y is called before Z"
are statements about that log.  `os.Exit` and a Go run-time panic are outcomes
of a computation (`Res.exit`, `Res.panic`) that stop everything after them.
-/

namespace Tctl

/-! ## Data model -/

/-- The part of utils.NetAddr that tctl.go reads: the `Addr` field. -/
structure NetAddr where
  Addr : String
deriving DecidableEq, Repr

/-- GlobalCLIFlags keeps the CLI flags that apply to all tctl commands. -/
structure GlobalCLIFlags where
  Debug : Bool
  ConfigFile : String
  ConfigString : String
deriving DecidableEq, Repr

/-- The `Auth` section of service.Config; tctl.go writes `Enabled`. -/
structure AuthConfig where
  Enabled : Bool
deriving DecidableEq, Repr

/-- The fields of service.Config that tctl.go reads or writes. -/
structure Config where
  Auth : AuthConfig
  AuthServers : List NetAddr
  DataDir : String
  HostUUID : String
deriving DecidableEq, Repr

/-- A Go `error` value; `wrap` is what trace.Wrap puts around an error. -/
inductive Error where
  | raw (msg : String)
  | wrap (inner : Error)
deriving DecidableEq, Repr

/-- The call trace.Wrap(err) for a non-nil err. -/
def trace.Wrap (err : Error) : Error := Error.wrap err

/-- A role name (teleport.Role). -/
abbrev Role := String

/-- The constant teleport.RoleAdmin. -/
def teleport.RoleAdmin : Role := "Admin"

/-- The key auth.IdentityID of a host identity: role and host id. -/
structure IdentityID where
  Role : Role
  HostUUID : String
deriving DecidableEq, Repr

/-- An ssh.Signer, identified by its key material. -/
structure Signer where
  key : String
deriving DecidableEq, Repr

/-- The part of auth.Identity that tctl.go reads: the `KeySigner` field. -/
structure Identity where
  KeySigner : Signer
deriving DecidableEq, Repr

/-- An ssh.AuthMethod; tctl.go builds only public-key methods. -/
inductive AuthMethod where
  | PublicKeys (signer : Signer)
deriving DecidableEq, Repr

/-- The call ssh.PublicKeys(signer). -/
def ssh.PublicKeys (signer : Signer) : AuthMethod := AuthMethod.PublicKeys signer

/-- A constructed *auth.TunClient, identified by a handle. -/
structure TunClient where
  handle : Nat
deriving DecidableEq, Repr

/-- The logrus levels tctl.go passes to utils.InitLogger. -/
inductive LogLevel where
  | WarnLevel
  | DebugLevel
deriving DecidableEq, Repr

/-- The command handlers `Run` calls with the client, one per `case` of its
second `switch`. -/
inductive Handler where
  | Get
  | Create
  | Delete
  | ExportAuthorities
  | TokensList
  | TokensDel
  | GenerateAndSignKeys
deriving DecidableEq, Repr

/-- CLICommand interface: `TryRun` answers (match, err) for a selected command
and a client pointer (`none` is the nil pointer).  `Initialize` only registers
flags with the parser; its effect is part of `Env.Parse`, and the call itself
is logged as `Event.Initialize`. -/
structure CLICommand where
  TryRun : String → Option TunClient → Bool × Option Error

/-- What app.Parse leaves behind when it returns without error: the selected
command, the global flags it stored in `ccf`, and the shared `cfg` with the
values of the flags that the modules bound to it in `Initialize`. -/
structure Parsed where
  selectedCmd : String
  ccf : GlobalCLIFlags
  cfg : Config
deriving DecidableEq, Repr

/-- One call out of tctl.go, with the arguments it was made with.  `FC` is the
type of config.FileConfig values. -/
inductive Event (FC : Type) where
  | InitLogger (level : LogLevel)
  | Initialize (i : Nat)
  | Parse (args : List String)
  | PrintVersion (distribution : String)
  | FatalError (err : Error)
  | ReadConfigFile (path : String)
  | ReadFromString (s : String)
  | ApplyFileConfig (fileConf : FC)
  | Debugf (msg : String)
  | ReadHostUUID (dataDir : String)
  | ReadIdentity (dataDir : String) (id : IdentityID)
  | NewTunClient (user : String) (authServers : List NetAddr) (hostUUID : String)
      (methods : List AuthMethod)
  | GetDialer (client : TunClient)
  | Consolef (err : Error) (addr : String)
  | TryRun (i : Nat) (selectedCommand : String) (c : Option TunClient)
  | GenerateKeys
  | Handler (h : Handler) (c : Option TunClient)
  | LogError (err : Error)
deriving DecidableEq, Repr

/-- The packages tctl.go calls into, as functions of their arguments. -/
structure Env (FC : Type) where
  /-- service.MakeDefaultConfig() -/
  MakeDefaultConfig : Config
  /-- app.Parse(os.Args[1:]) on the parser built by the registrations -/
  Parse : List String → Except Error Parsed
  /-- config.ReadConfigFile(path) -/
  ReadConfigFile : String → Except Error FC
  /-- config.ReadFromString(s) -/
  ReadFromString : String → Except Error FC
  /-- config.ApplyFileConfig(fc, cfg): the cfg it leaves and the error it returns -/
  ApplyFileConfig : FC → Config → Config × Option Error
  /-- utils.ReadHostUUID(dataDir): the string and the error it returns -/
  ReadHostUUID : String → String × Option Error
  /-- the address defaults.AuthConnectAddr() points to -/
  AuthConnectAddr : NetAddr
  /-- auth.ReadIdentity(dataDir, id) -/
  ReadIdentity : String → IdentityID → Except Error Identity
  /-- auth.NewTunClient(purpose, authServers, user, authMethods) -/
  NewTunClient : String → List NetAddr → String → List AuthMethod → Except Error TunClient
  /-- client.GetDialer()(): the error of the dial -/
  Dial : TunClient → Option Error
  /-- cmdAuth.GenerateKeys() -/
  GenerateKeys : Option Error
  /-- the handlers called with the client -/
  Handler : Handler → Option TunClient → Option Error

/-! ## Computations with a call log, process exit and panic -/

/-- How a piece of Go code ends: it returns a value, the process exits with a
status, or the run time panics. -/
inductive Res (α : Type) where
  | ret (a : α)
  | exit (code : Nat)
  | panic
deriving DecidableEq, Repr

/-- The mutable state: the shared `cfg` object and the calls made so far,
oldest first. -/
structure World (FC : Type) where
  cfg : Config
  calls : List (Event FC)
deriving DecidableEq, Repr

/-- A computation: from a state to an outcome and the state it leaves. -/
def Proc (FC : Type) (α : Type) : Type := World FC → Res α × World FC

/-- Sequencing: what follows an exit or a panic is not run. -/
def Proc.bind {FC α β : Type} (m : Proc FC α) (f : α → Proc FC β) : Proc FC β :=
  fun w =>
    match m w with
    | (Res.ret a, w1) => f a w1
    | (Res.exit code, w1) => (Res.exit code, w1)
    | (Res.panic, w1) => (Res.panic, w1)

instance (FC : Type) : Monad (Proc FC) where
  pure a := fun w => (Res.ret a, w)
  bind := Proc.bind

/-- Append one call to the log. -/
def emit {FC : Type} (e : Event FC) : Proc FC Unit :=
  fun w => (Res.ret (), { w with calls := w.calls ++ [e] })

/-- Read the shared cfg. -/
def getCfg {FC : Type} : Proc FC Config :=
  fun w => (Res.ret w.cfg, w)

/-- Overwrite the shared cfg. -/
def setCfg {FC : Type} (cfg : Config) : Proc FC Unit :=
  fun w => (Res.ret (), { w with cfg := cfg })

/-- The call os.Exit(code). -/
def os.Exit {FC α : Type} (code : Nat) : Proc FC α :=
  fun w => (Res.exit code, w)

/-- A Go run-time panic (index out of range). -/
def goPanic {FC α : Type} : Proc FC α :=
  fun w => (Res.panic, w)

/-! ## Calls into other packages -/

/-- The call utils.InitLogger(utils.LoggingForCLI, level). -/
def utils.InitLogger {FC : Type} (level : LogLevel) : Proc FC Unit :=
  emit (Event.InitLogger level)

/-- The call utils.FatalError(err): report the error and exit with status 1. -/
def utils.FatalError {FC α : Type} (err : Error) : Proc FC α := do
  emit (Event.FatalError err)
  os.Exit 1

/-- The call utils.PrintVersion(distribution). -/
def utils.PrintVersion {FC : Type} (distribution : String) : Proc FC Unit :=
  emit (Event.PrintVersion distribution)

/-- The call utils.Consolef(os.Stderr, "Cannot connect to the auth server:
%v.\nIs the auth server running on %v?", err, addr). -/
def utils.Consolef {FC : Type} (err : Error) (addr : String) : Proc FC Unit :=
  emit (Event.Consolef err addr)

/-- The call utils.ReadHostUUID(dataDir). -/
def utils.ReadHostUUID {FC : Type} (env : Env FC) (dataDir : String) :
    Proc FC (String × Option Error) := do
  emit (Event.ReadHostUUID dataDir)
  pure (env.ReadHostUUID dataDir)

/-- The call app.Parse(os.Args[1:]). -/
def app.Parse {FC : Type} (env : Env FC) (args : List String) :
    Proc FC (Except Error Parsed) := do
  emit (Event.Parse args)
  pure (env.Parse args)

/-- The call config.ReadConfigFile(path). -/
def config.ReadConfigFile {FC : Type} (env : Env FC) (path : String) :
    Proc FC (Except Error FC) := do
  emit (Event.ReadConfigFile path)
  pure (env.ReadConfigFile path)

/-- The call config.ReadFromString(s). -/
def config.ReadFromString {FC : Type} (env : Env FC) (s : String) :
    Proc FC (Except Error FC) := do
  emit (Event.ReadFromString s)
  pure (env.ReadFromString s)

/-- The call config.ApplyFileConfig(fileConf, cfg): it writes into the shared
cfg and returns its error. -/
def config.ApplyFileConfig {FC : Type} (env : Env FC) (fileConf : FC) :
    Proc FC (Option Error) := do
  emit (Event.ApplyFileConfig fileConf)
  let r := env.ApplyFileConfig fileConf (← getCfg)
  setCfg r.1
  pure r.2

/-- The call auth.ReadIdentity(dataDir, id). -/
def auth.ReadIdentity {FC : Type} (env : Env FC) (dataDir : String) (id : IdentityID) :
    Proc FC (Except Error Identity) := do
  emit (Event.ReadIdentity dataDir id)
  pure (env.ReadIdentity dataDir id)

/-- The call auth.NewTunClient(purpose, authServers, user, authMethods). -/
def auth.NewTunClient {FC : Type} (env : Env FC) (purpose : String)
    (authServers : List NetAddr) (user : String) (authMethods : List AuthMethod) :
    Proc FC (Except Error TunClient) := do
  emit (Event.NewTunClient purpose authServers user authMethods)
  pure (env.NewTunClient purpose authServers user authMethods)

/-- The call client.GetDialer()(), keeping the error. -/
def TunClient.GetDialer {FC : Type} (client : TunClient) (env : Env FC) :
    Proc FC (Option Error) := do
  emit (Event.GetDialer client)
  pure (env.Dial client)

/-- The call cmdAuth.GenerateKeys(). -/
def cmdAuth.GenerateKeys {FC : Type} (env : Env FC) : Proc FC (Option Error) := do
  emit Event.GenerateKeys
  pure env.GenerateKeys

/-- A handler call such as cmdGet.Get(client). -/
def callHandler {FC : Type} (env : Env FC) (h : Handler) (client : Option TunClient) :
    Proc FC (Option Error) := do
  emit (Event.Handler h client)
  pure (env.Handler h client)

/-- The call logrus.Error(err). -/
def logrus.Error {FC : Type} (err : Error) : Proc FC Unit :=
  emit (Event.LogError err)

/-- The call logrus.Debugf(msg). -/
def logrus.Debugf {FC : Type} (msg : String) : Proc FC Unit :=
  emit (Event.Debugf msg)

/-! ## tctl.go -/

/-- connectToAuthService creates a valid client connection to the auth service
(tctl.go, lines 260-290).  The result is the pair (client, err). -/
def connectToAuthService {FC : Type} (env : Env FC) :
    Proc FC (Option TunClient × Option Error) := do
  -- connect to the local auth server by default:
  let cfg0 ← getCfg
  setCfg { cfg0 with Auth := { cfg0.Auth with Enabled := true } }
  if (← getCfg).AuthServers.length = 0 then
    setCfg { (← getCfg) with AuthServers := [env.AuthConnectAddr] }
  let cfg ← getCfg
  -- read the host SSH keys and use them to open an SSH connection
  match ← auth.ReadIdentity env cfg.DataDir
      { Role := teleport.RoleAdmin, HostUUID := cfg.HostUUID } with
  | Except.error err => pure (none, some (trace.Wrap err))
  | Except.ok i =>
    match ← auth.NewTunClient env "tctl" cfg.AuthServers cfg.HostUUID
        [ssh.PublicKeys i.KeySigner] with
    | Except.error err => pure (none, some (trace.Wrap err))
    | Except.ok client =>
      -- check connectivity by calling something on a client:
      match ← client.GetDialer env with
      | some err =>
        match cfg.AuthServers[0]? with
        | none => goPanic
        | some first => do
          utils.Consolef err first.Addr
          os.Exit 1
      | none => pure (some client, none)

/-- applyConfig takes configuration values from the config file and applies
them to the service.Config object (tctl.go, lines 294-323).  The result is the
returned error (`none` is nil). -/
def applyConfig {FC : Type} (env : Env FC) (ccf : GlobalCLIFlags) :
    Proc FC (Option Error) := do
  -- load /etc/teleport.yaml and apply its values:
  match ← config.ReadConfigFile env ccf.ConfigFile with
  | Except.error err => pure (some (trace.Wrap err))
  | Except.ok fileConf0 =>
    -- if configuration is passed as an environment variable,
    -- try to decode it and override the config file
    let decoded : Except Error FC ←
      if ccf.ConfigString ≠ "" then config.ReadFromString env ccf.ConfigString
      else pure (Except.ok fileConf0)
    match decoded with
    | Except.error err => pure (some (trace.Wrap err))
    | Except.ok fileConf =>
      match ← config.ApplyFileConfig env fileConf with
      | some err => pure (some (trace.Wrap err))
      | none =>
        -- --debug flag
        if ccf.Debug then
          utils.InitLogger LogLevel.DebugLevel
          logrus.Debugf "DEBUG loggign enabled"
        -- read a host UUID for this node
        let cfg ← getCfg
        let r ← utils.ReadHostUUID env cfg.DataDir
        setCfg { cfg with HostUUID := r.1 }
        match r.2 with
        | some err => utils.FatalError err
        | none => pure none

/-- The loop `for i := range commands { commands[i].Initialize(app, cfg) }` of
Run2 (lines 73-75), from index `i` on. -/
def initializeAll {FC : Type} : List CLICommand → Nat → Proc FC Unit
  | [], _ => pure ()
  | _ :: rest, i => do
    emit (Event.Initialize i)
    initializeAll rest (i + 1)

/-- The loop `for _, c := range commands { ... }` of Run2 (lines 115-123), from
the module with index `i` on. -/
def dispatch {FC : Type} (selectedCmd : String) (client : Option TunClient) :
    List CLICommand → Nat → Proc FC Unit
  | [], _ => pure ()
  | c :: rest, i => do
    emit (Event.TryRun i selectedCmd client)
    let r := c.TryRun selectedCmd client
    match r.2 with
    | some err => utils.FatalError err
    | none => if r.1 then pure () else dispatch selectedCmd client rest (i + 1)

/-- Run2 (tctl.go, lines 62-124); `args` is os.Args[1:]. -/
def Run2 {FC : Type} (env : Env FC) (distribution : String) (commands : List CLICommand)
    (args : List String) : Proc FC Unit := do
  utils.InitLogger LogLevel.WarnLevel
  -- cfg is going to be shared by all commands
  setCfg env.MakeDefaultConfig
  -- each command will add itself to the CLI parser:
  initializeAll commands 0
  -- parse CLI commands+flags:
  match ← app.Parse env args with
  | Except.error err => utils.FatalError err
  | Except.ok parsed =>
    setCfg parsed.cfg
    -- "version" command?
    if parsed.selectedCmd = "version" then
      utils.PrintVersion distribution
    else do
      -- configure all commands with Teleport configuration (they share cfg)
      let _ ← applyConfig env parsed.ccf
      -- connect to the auth sever:
      let r ← connectToAuthService env
      match r.2 with
      | some err => utils.FatalError err
      | none =>
        -- execute whatever is selected:
        dispatch parsed.selectedCmd r.1 commands 0

/-- Run (tctl.go, lines 130-247); `args` is os.Args[1:].  The commands are
named by their kingpin FullCommand(): "version", "auth gen", "get", "create",
"del", "auth export", "tokens ls", "tokens del", "auth sign".  None of the
flags registered here is bound to a field of cfg. -/
def Run {FC : Type} (env : Env FC) (distribution : String) (args : List String) :
    Proc FC Unit := do
  utils.InitLogger LogLevel.WarnLevel
  -- generate default tctl configuration:
  setCfg env.MakeDefaultConfig
  -- parse CLI commands+flags:
  match ← app.Parse env args with
  | Except.error err => utils.FatalError err
  | Except.ok parsed =>
    let command := parsed.selectedCmd
    -- "version" command?
    if command = "version" then
      utils.PrintVersion distribution
    else do
      let _ ← applyConfig env parsed.ccf
      -- some commands do not need a connection to client
      if command = "auth gen" then
        match ← cmdAuth.GenerateKeys env with
        | some err => utils.FatalError err
        | none => pure ()
      else do
        -- connect to the teleport auth service:
        let r ← connectToAuthService env
        match r.2 with
        | some err => utils.FatalError err
        | none =>
          -- execute the selected command:
          let err ←
            if command = "get" then callHandler env Handler.Get r.1
            else if command = "create" then callHandler env Handler.Create r.1
            else if command = "del" then callHandler env Handler.Delete r.1
            else if command = "auth export" then callHandler env Handler.ExportAuthorities r.1
            else if command = "tokens ls" then callHandler env Handler.TokensList r.1
            else if command = "tokens del" then callHandler env Handler.TokensDel r.1
            else if command = "auth sign" then callHandler env Handler.GenerateAndSignKeys r.1
            else pure none
          match err with
          | some e => do
            logrus.Error e
            utils.FatalError e
          | none => pure ()

/-! ## Definitions used to state the properties -/

/-- The log entries of the registration loop for `n` modules. -/
def initEvents {FC : Type} (n : Nat) : List (Event FC) :=
  (List.range n).map Event.Initialize

/-- The state in which Run2 calls applyConfig: `cfg` as the parser left it, and
the log of the logger set-up, the registrations and the parse. -/
def Run2.parsedWorld {FC : Type} (commands : List CLICommand) (args : List String)
    (parsed : Parsed) (w0 : World FC) : World FC :=
  { cfg := parsed.cfg
    calls := w0.calls ++ Event.InitLogger LogLevel.WarnLevel ::
      (initEvents commands.length ++ [Event.Parse args]) }

/-- The state in which Run calls applyConfig: the default `cfg`, and the log of
the logger set-up and the parse. -/
def Run.parsedWorld {FC : Type} (env : Env FC) (args : List String) (w0 : World FC) :
    World FC :=
  { cfg := env.MakeDefaultConfig
    calls := w0.calls ++ [Event.InitLogger LogLevel.WarnLevel, Event.Parse args] }

/-- The handler call of the second `switch` of Run for a command, if any. -/
def Run.handlerOf (command : String) : Option Handler :=
  if command = "get" then some Handler.Get
  else if command = "create" then some Handler.Create
  else if command = "del" then some Handler.Delete
  else if command = "auth export" then some Handler.ExportAuthorities
  else if command = "tokens ls" then some Handler.TokensList
  else if command = "tokens del" then some Handler.TokensDel
  else if command = "auth sign" then some Handler.GenerateAndSignKeys
  else none

/-- A module's answer ends the dispatch loop: match=true, or an error. -/
def stops (r : Bool × Option Error) : Bool := r.1 || r.2.isSome

/-- The number of modules reached by the dispatch loop: those in front of the
first module whose answer ends the loop, and that module itself if there is one. -/
def invokedCount (selectedCmd : String) (client : Option TunClient)
    (commands : List CLICommand) : Nat :=
  min ((commands.takeWhile (fun c => !stops (c.TryRun selectedCmd client))).length + 1)
    commands.length

/-- The error returned by the first module whose answer ends the loop, if any. -/
def dispatchError (selectedCmd : String) (client : Option TunClient)
    (commands : List CLICommand) : Option Error :=
  (commands.find? (fun c => stops (c.TryRun selectedCmd client))).bind
    (fun c => (c.TryRun selectedCmd client).2)

/-- The outcome of the dispatch loop for a given error of the stopping module. -/
def dispatchResult (err : Option Error) : Res Unit :=
  match err with
  | some _ => Res.exit 1
  | none => Res.ret ()

/-- The log entry of the fatal error of the stopping module, if any. -/
def fatalEvents {FC : Type} (err : Option Error) : List (Event FC) :=
  match err with
  | some e => [Event.FatalError e]
  | none => []

/-- The server list connectToAuthService works with: the configured list, or
the single default address when none is configured. -/
def authServersUsed {FC : Type} (env : Env FC) (cfg : Config) : List NetAddr :=
  if cfg.AuthServers = [] then [env.AuthConnectAddr] else cfg.AuthServers

/-- The shared cfg as connectToAuthService leaves it. -/
def connectCfg {FC : Type} (env : Env FC) (cfg : Config) : Config :=
  { cfg with Auth := { cfg.Auth with Enabled := true }, AuthServers := authServersUsed env cfg }

/-- A call of a module's TryRun or of a command handler of Run. -/
def Event.isCommand {FC : Type} : Event FC → Bool
  | Event.InitLogger _ => false
  | Event.Initialize _ => false
  | Event.Parse _ => false
  | Event.PrintVersion _ => false
  | Event.FatalError _ => false
  | Event.ReadConfigFile _ => false
  | Event.ReadFromString _ => false
  | Event.ApplyFileConfig _ => false
  | Event.Debugf _ => false
  | Event.ReadHostUUID _ => false
  | Event.ReadIdentity _ _ => false
  | Event.NewTunClient _ _ _ _ => false
  | Event.GetDialer _ => false
  | Event.Consolef _ _ => false
  | Event.TryRun _ _ _ => true
  | Event.GenerateKeys => true
  | Event.Handler _ _ => true
  | Event.LogError _ => false

/-- A call that touches the network: client construction or the dial. -/
def Event.isNetwork {FC : Type} : Event FC → Bool
  | Event.InitLogger _ => false
  | Event.Initialize _ => false
  | Event.Parse _ => false
  | Event.PrintVersion _ => false
  | Event.FatalError _ => false
  | Event.ReadConfigFile _ => false
  | Event.ReadFromString _ => false
  | Event.ApplyFileConfig _ => false
  | Event.Debugf _ => false
  | Event.ReadHostUUID _ => false
  | Event.ReadIdentity _ _ => false
  | Event.NewTunClient _ _ _ _ => true
  | Event.GetDialer _ => true
  | Event.Consolef _ _ => false
  | Event.TryRun _ _ _ => false
  | Event.GenerateKeys => false
  | Event.Handler _ _ => false
  | Event.LogError _ => false

/-- Modelled from the spec: the type config.FileConfig is declared in
lib/config, not in tctl.go.  A file or string configuration holds, for each
RuntimeConfig field this core names, a value or nothing; a field that is
absent is not set by that source. -/
structure SpecFileConfig where
  AuthServers : Option (List NetAddr)
  DataDir : Option String
deriving DecidableEq, Repr

/-- Modelled from the spec: config.ApplyFileConfig is defined in lib/config,
not in tctl.go.  "Apply the resolved file/string configuration onto the
RuntimeConfig object (deep merge into defaults ...)": a field the configuration
sets overwrites the RuntimeConfig value, an absent field leaves it as it was. -/
def specApplyFileConfig (fc : SpecFileConfig) (cfg : Config) : Config × Option Error :=
  ({ cfg with
      AuthServers := fc.AuthServers.getD cfg.AuthServers
      DataDir := fc.DataDir.getD cfg.DataDir }, none)

/-! ## Concrete inputs -/

/-- A default configuration: no auth server configured, host id unset. -/
def demoCfg : Config :=
  { Auth := { Enabled := false }, AuthServers := [], DataDir := "/var/lib/teleport",
    HostUUID := "" }

/-- No global flag given. -/
def demoFlags : GlobalCLIFlags := { Debug := false, ConfigFile := "", ConfigString := "" }

/-- A command line parser for a handful of argument lists. -/
def demoParse (args : List String) : Except Error Parsed :=
  match args with
  | ["version"] => Except.ok ⟨"version", demoFlags, demoCfg⟩
  | ["-d", "--config-string", s, "version"] =>
    Except.ok ⟨"version", { Debug := true, ConfigFile := "", ConfigString := s }, demoCfg⟩
  | ["tokens", "ls"] => Except.ok ⟨"tokens ls", demoFlags, demoCfg⟩
  | ["--config-string", s, "tokens", "ls"] =>
    Except.ok ⟨"tokens ls", { demoFlags with ConfigString := s }, demoCfg⟩
  | _ => Except.error (Error.raw "unknown command")

/-- An environment in which every step succeeds.  File configs are numbered:
0 is what the default file location gives, 1 is the decoded string
"dGVsZXBvcnQ=", which sets one auth server. -/
def demoEnv : Env Nat where
  MakeDefaultConfig := demoCfg
  Parse := demoParse
  ReadConfigFile := fun _ => Except.ok 0
  ReadFromString := fun s =>
    if s = "dGVsZXBvcnQ=" then Except.ok 1 else Except.error (Error.raw "illegal base64 data")
  ApplyFileConfig := fun fc cfg =>
    (if fc = 1 then { cfg with AuthServers := [⟨"10.0.0.5:3025"⟩] } else cfg, none)
  ReadHostUUID := fun _ => ("7c9d2a10", none)
  AuthConnectAddr := ⟨"127.0.0.1:3025"⟩
  ReadIdentity := fun _ _ => Except.ok ⟨⟨"host-key"⟩⟩
  NewTunClient := fun _ _ _ _ => Except.ok ⟨1⟩
  Dial := fun _ => none
  GenerateKeys := none
  Handler := fun _ _ => none

/-- The auth service does not answer the dial. -/
def probeFailEnv : Env Nat :=
  { demoEnv with Dial := fun _ => some (Error.raw "connection refused") }

/-- The host has no identity on disk. -/
def noIdentityEnv : Env Nat :=
  { demoEnv with ReadIdentity := fun _ _ => Except.error (Error.raw "identity not found") }

/-- The default configuration file exists and is malformed. -/
def badFileEnv : Env Nat :=
  { demoEnv with ReadConfigFile := fun _ => Except.error (Error.raw "yaml: line 1") }

/-- Three modules: "nodes", "tokens", and a second one that also answers to
"tokens ls". -/
def demoCommands : List CLICommand :=
  [ { TryRun := fun cmd _ => (cmd = "nodes ls", none) },
    { TryRun := fun cmd _ => (cmd = "tokens ls", none) },
    { TryRun := fun cmd _ => (cmd = "tokens ls", some (Error.raw "never reached")) } ]

/-- The state a process starts in: nothing called yet. -/
def demoStart : World Nat := { cfg := demoCfg, calls := [] }

/-- What the parser returns for "tokens ls". -/
def demoParsed : Parsed := ⟨"tokens ls", demoFlags, demoCfg⟩

/-- What the parser returns for "--config-string dGVsZXBvcnQ= tokens ls". -/
def demoParsedString : Parsed :=
  ⟨"tokens ls", { demoFlags with ConfigString := "dGVsZXBvcnQ=" }, demoCfg⟩

/-- The state of Run2 (three modules, "tokens ls") after applyConfig. -/
def demoApplied : World Nat :=
  { cfg := { demoCfg with HostUUID := "7c9d2a10" }
    calls := [Event.InitLogger LogLevel.WarnLevel, Event.Initialize 0, Event.Initialize 1,
      Event.Initialize 2, Event.Parse ["tokens", "ls"], Event.ReadConfigFile "",
      Event.ApplyFileConfig 0, Event.ReadHostUUID "/var/lib/teleport"] }

/-- The state of Run ("tokens ls") after applyConfig. -/
def demoAppliedRun : World Nat :=
  { cfg := { demoCfg with HostUUID := "7c9d2a10" }
    calls := [Event.InitLogger LogLevel.WarnLevel, Event.Parse ["tokens", "ls"],
      Event.ReadConfigFile "", Event.ApplyFileConfig 0,
      Event.ReadHostUUID "/var/lib/teleport"] }

/-- The shared cfg after connectToAuthService in `demoApplied`. -/
def demoConnectedCfg : Config :=
  { Auth := { Enabled := true }, AuthServers := [⟨"127.0.0.1:3025"⟩],
    DataDir := "/var/lib/teleport", HostUUID := "7c9d2a10" }

/-- The calls connectToAuthService makes in `demoApplied` up to the dial. -/
def demoConnectCalls : List (Event Nat) :=
  [Event.ReadIdentity "/var/lib/teleport" ⟨"Admin", "7c9d2a10"⟩,
    Event.NewTunClient "tctl" [⟨"127.0.0.1:3025"⟩] "7c9d2a10"
      [AuthMethod.PublicKeys ⟨"host-key"⟩],
    Event.GetDialer ⟨1⟩]

/-- The state after connectToAuthService in `demoApplied`. -/
def demoConnected : World Nat :=
  { cfg := demoConnectedCfg, calls := demoApplied.calls ++ demoConnectCalls }

/-- The start state for runs over `SpecFileConfig`. -/
def specStart : World SpecFileConfig := { cfg := demoCfg, calls := [] }

/-- A file config that sets the data directory only. -/
def fileSetsDataDir : SpecFileConfig := { AuthServers := none, DataDir := some "/srv/teleport" }

/-- A string config that sets the auth servers only. -/
def stringSetsServers : SpecFileConfig :=
  { AuthServers := some [⟨"10.0.0.5:3025"⟩], DataDir := none }

/-- Both a file config and a string config are present and valid;
ApplyFileConfig is the field-by-field merge. -/
def bothConfigsEnv : Env SpecFileConfig where
  MakeDefaultConfig := demoCfg
  Parse := demoParse
  ReadConfigFile := fun _ => Except.ok fileSetsDataDir
  ReadFromString := fun _ => Except.ok stringSetsServers
  ApplyFileConfig := specApplyFileConfig
  ReadHostUUID := fun _ => ("7c9d2a10", none)
  AuthConnectAddr := ⟨"127.0.0.1:3025"⟩
  ReadIdentity := fun _ _ => Except.ok ⟨⟨"host-key"⟩⟩
  NewTunClient := fun _ _ _ _ => Except.ok ⟨1⟩
  Dial := fun _ => none
  GenerateKeys := none
  Handler := fun _ _ => none

/-- Flags with a config file and a config string. -/
def bothFlags : GlobalCLIFlags :=
  { Debug := false, ConfigFile := "/etc/teleport.yaml", ConfigString := "dGVsZXBvcnQ=" }

/-- Flags with a config string and no config file. -/
def stringOnlyFlags : GlobalCLIFlags :=
  { Debug := false, ConfigFile := "", ConfigString := "dGVsZXBvcnQ=" }

/-! ## Lemmas on running the computations -/

theorem run_pure {FC α : Type} (a : α) (w : World FC) :
    (pure a : Proc FC α) w = (Res.ret a, w) := rfl

theorem run_bind {FC α β : Type} (m : Proc FC α) (f : α → Proc FC β) (w : World FC) :
    (m >>= f) w = Proc.bind m f w := rfl

theorem initializeAll_run {FC : Type} (commands : List CLICommand) (i : Nat) (w : World FC) :
    initializeAll commands i w =
      (Res.ret (), { w with calls := w.calls ++
        (List.range commands.length).map (fun k => Event.Initialize (i + k)) }) := by
  induction commands generalizing i w with
  | nil => simp [initializeAll, run_pure]
  | cons c rest ih =>
    simp only [initializeAll, run_bind, Proc.bind, emit, ih, List.length_cons,
      List.range_succ_eq_map, List.map_cons, List.map_map]
    congr 2
    simp only [List.append_assoc, List.singleton_append, Nat.add_zero]
    congr 2
    apply List.map_congr_left
    intro k _
    simp [Nat.add_assoc, Nat.add_comm 1 k]

theorem initializeAll_zero {FC : Type} (commands : List CLICommand) (w : World FC) :
    initializeAll commands 0 w =
      (Res.ret (), { w with calls := w.calls ++ initEvents commands.length }) := by
  rw [initializeAll_run]
  simp [initEvents]

theorem Run2_of_applyConfig {FC : Type} (env : Env FC) (d : String)
    (commands : List CLICommand) (args : List String) (w0 : World FC) (parsed : Parsed)
    (a : Option Error) (w : World FC)
    (hparse : env.Parse args = Except.ok parsed) (hver : parsed.selectedCmd ≠ "version")
    (happ : applyConfig env parsed.ccf (Run2.parsedWorld commands args parsed w0)
      = (Res.ret a, w)) :
    Run2 env d commands args w0 =
      match connectToAuthService env w with
      | (Res.ret (_, some err), w1) =>
        (Res.exit 1, { w1 with calls := w1.calls ++ [Event.FatalError err] })
      | (Res.ret (client, none), w1) => dispatch parsed.selectedCmd client commands 0 w1
      | (Res.exit code, w1) => (Res.exit code, w1)
      | (Res.panic, w1) => (Res.panic, w1) := by
  simp only [Run2.parsedWorld] at happ
  rcases hc : connectToAuthService env w with ⟨r, w1⟩
  rcases r with ⟨cl, _ | err⟩ | c | _ <;>
  simp [Run2, run_bind, Proc.bind, utils.InitLogger, emit, setCfg, initializeAll_zero,
    app.Parse, hparse, hver, run_pure, happ, hc, utils.FatalError, os.Exit]

theorem Run2_of_applyConfig_stop {FC : Type} (env : Env FC) (d : String)
    (commands : List CLICommand) (args : List String) (w0 : World FC) (parsed : Parsed)
    (code : Nat) (w : World FC)
    (hparse : env.Parse args = Except.ok parsed) (hver : parsed.selectedCmd ≠ "version")
    (happ : applyConfig env parsed.ccf (Run2.parsedWorld commands args parsed w0)
      = (Res.exit code, w)) :
    Run2 env d commands args w0 = (Res.exit code, w) := by
  simp only [Run2.parsedWorld] at happ
  simp [Run2, run_bind, Proc.bind, utils.InitLogger, emit, setCfg, initializeAll_zero,
    app.Parse, hparse, hver, run_pure, happ]

theorem Run_of_applyConfig {FC : Type} (env : Env FC) (d : String)
    (args : List String) (w0 : World FC) (parsed : Parsed)
    (a : Option Error) (w : World FC)
    (hparse : env.Parse args = Except.ok parsed) (hver : parsed.selectedCmd ≠ "version")
    (hgen : parsed.selectedCmd ≠ "auth gen")
    (happ : applyConfig env parsed.ccf (Run.parsedWorld env args w0) = (Res.ret a, w)) :
    Run env d args w0 =
      match connectToAuthService env w with
      | (Res.ret (_, some err), w1) =>
        (Res.exit 1, { w1 with calls := w1.calls ++ [Event.FatalError err] })
      | (Res.ret (client, none), w1) =>
        match Run.handlerOf parsed.selectedCmd with
        | none => (Res.ret (), w1)
        | some h =>
          match env.Handler h client with
          | none => (Res.ret (), { w1 with calls := w1.calls ++ [Event.Handler h client] })
          | some e => (Res.exit 1, { w1 with calls := w1.calls ++
              [Event.Handler h client, Event.LogError e, Event.FatalError e] })
      | (Res.exit code, w1) => (Res.exit code, w1)
      | (Res.panic, w1) => (Res.panic, w1) := by
  simp only [Run.parsedWorld] at happ
  rcases hc : connectToAuthService env w with ⟨r, w1⟩
  rcases r with ⟨cl, _ | err⟩ | c | _
  · simp only [Run, run_bind, Proc.bind, utils.InitLogger, emit, setCfg,
      app.Parse, hparse, hver, run_pure, happ, hc, utils.FatalError, os.Exit, hgen,
      Run.handlerOf, callHandler, logrus.Error, if_false, List.append_assoc,
      List.singleton_append, List.nil_append, List.cons_append]
    split_ifs <;> simp only [reduceCtorEq] <;>
      first
        | (split <;> simp_all [run_bind, Proc.bind, emit, run_pure, os.Exit])
        | simp [run_bind, Proc.bind, run_pure]
  all_goals
    simp [Run, run_bind, Proc.bind, utils.InitLogger, emit, setCfg,
      app.Parse, hparse, hver, run_pure, happ, hc, utils.FatalError, os.Exit, hgen]

theorem dispatch_run {FC : Type} (selectedCmd : String) (client : Option TunClient)
    (commands : List CLICommand) (i : Nat) (w : World FC) :
    dispatch selectedCmd client commands i w =
      (dispatchResult (dispatchError selectedCmd client commands),
        { w with calls := w.calls ++
          ((List.range (invokedCount selectedCmd client commands)).map
              (fun k => Event.TryRun (i + k) selectedCmd client) ++
            fatalEvents (dispatchError selectedCmd client commands)) }) := by
  induction commands generalizing i w with
  | nil => simp [dispatch, run_pure, invokedCount, dispatchError, dispatchResult, fatalEvents]
  | cons c rest ih =>
    rcases hr : c.TryRun selectedCmd client with ⟨m, _ | e⟩
    · cases m
      · have hq : invokedCount selectedCmd client (c :: rest)
            = invokedCount selectedCmd client rest + 1 := by
          simp [invokedCount, stops, hr, Nat.add_min_add_right]
        have he : dispatchError selectedCmd client (c :: rest)
            = dispatchError selectedCmd client rest := by
          simp [dispatchError, stops, hr]
        rw [hq, he]
        simp [dispatch, run_bind, Proc.bind, emit, hr, ih, List.range_succ_eq_map,
          List.map_map]
        intro k _
        omega
      · simp [dispatch, run_bind, Proc.bind, emit, hr, run_pure, invokedCount, dispatchError,
          dispatchResult, fatalEvents, stops, List.range_succ_eq_map]
    · simp [dispatch, run_bind, Proc.bind, emit, hr, run_pure, invokedCount, dispatchError,
        dispatchResult, fatalEvents, stops, utils.FatalError, os.Exit, List.range_succ_eq_map]

theorem connectToAuthService_cfg {FC : Type} (env : Env FC) (w : World FC) :
    (connectToAuthService env w).2.cfg = connectCfg env w.cfg := by
  rcases hs : w.cfg.AuthServers with _ | ⟨s, ss⟩ <;>
  rcases hi : env.ReadIdentity w.cfg.DataDir
    { Role := teleport.RoleAdmin, HostUUID := w.cfg.HostUUID } with e0 | i <;>
  simp [connectToAuthService, auth.ReadIdentity, run_bind, Proc.bind, run_pure, emit, getCfg,
    setCfg, hs, hi, connectCfg, authServersUsed]
  all_goals
    rcases hn : env.NewTunClient "tctl" (authServersUsed env w.cfg) w.cfg.HostUUID
      [ssh.PublicKeys i.KeySigner] with e1 | client <;>
    simp [authServersUsed, hs] at hn <;>
    simp [auth.NewTunClient, run_bind, Proc.bind, run_pure, emit, hn]
  all_goals
    rcases hd : env.Dial client with _ | e2 <;>
    simp [TunClient.GetDialer, utils.Consolef, os.Exit, run_bind, Proc.bind, run_pure, emit, hd]

theorem applyConfig_calls {FC : Type} (env : Env FC) (ccf : GlobalCLIFlags) (w : World FC) :
    ∃ new, (applyConfig env ccf w).2.calls = w.calls ++ new ∧
      ∀ ev ∈ new, Event.isNetwork ev = false ∧ Event.isCommand ev = false := by
  rcases hf : env.ReadConfigFile ccf.ConfigFile with e0 | fc
  · simp [applyConfig, config.ReadConfigFile, run_bind, Proc.bind, run_pure, emit, hf,
      Event.isNetwork, Event.isCommand]
  · by_cases hs : ccf.ConfigString = ""
    · have hne : ¬ (ccf.ConfigString ≠ "") := not_not.2 hs
      simp only [applyConfig, config.ReadConfigFile, run_bind, Proc.bind, emit, run_pure, hf,
        hne, if_false]
      rcases hA : (env.ApplyFileConfig fc w.cfg).2 with _ | e <;>
      rcases hD : ccf.Debug <;>
      rcases hU : (env.ReadHostUUID (env.ApplyFileConfig fc w.cfg).1.DataDir).2 with _ | e2 <;>
      simp [config.ApplyFileConfig, utils.ReadHostUUID,
        utils.InitLogger, utils.FatalError, logrus.Debugf, os.Exit, run_bind, run_pure,
        Proc.bind, emit, getCfg, setCfg, hA, hD, hU, Event.isNetwork, Event.isCommand]
    · rcases hd : env.ReadFromString ccf.ConfigString with e1 | fs
      · simp [applyConfig, config.ReadConfigFile, config.ReadFromString, run_bind, Proc.bind,
          run_pure, emit, hf, hs, hd, Event.isNetwork, Event.isCommand]
      · rcases hA : (env.ApplyFileConfig fs w.cfg).2 with _ | e <;>
        rcases hD : ccf.Debug <;>
        rcases hU : (env.ReadHostUUID (env.ApplyFileConfig fs w.cfg).1.DataDir).2 with _ | e2 <;>
        simp [applyConfig, config.ReadConfigFile, config.ReadFromString,
          config.ApplyFileConfig, utils.ReadHostUUID, utils.InitLogger, utils.FatalError,
          logrus.Debugf, os.Exit, run_bind, run_pure, Proc.bind, emit, getCfg, setCfg,
          hf, hs, hd, hA, hD, hU, Event.isNetwork, Event.isCommand]

theorem lt_invokedCount_iff (selectedCmd : String) (client : Option TunClient)
    (commands : List CLICommand) (k : Nat) :
    k < invokedCount selectedCmd client commands ↔
      k < commands.length ∧ ∀ j c, j < k → commands[j]? = some c →
        stops (c.TryRun selectedCmd client) = false := by
  induction commands generalizing k with
  | nil => simp [invokedCount]
  | cons c rest ih =>
    cases hst : stops (c.TryRun selectedCmd client)
    · have hq : invokedCount selectedCmd client (c :: rest)
          = invokedCount selectedCmd client rest + 1 := by
        simp [invokedCount, hst, Nat.add_min_add_right]
      rw [hq]
      cases k with
      | zero => simp
      | succ k =>
        rw [Nat.add_lt_add_iff_right, ih k]
        constructor
        · rintro ⟨h1, h2⟩
          refine ⟨by simpa using h1, ?_⟩
          intro j d hj hd
          cases j with
          | zero =>
            simp at hd
            rw [← hd]
            exact hst
          | succ j => exact h2 j d (by omega) (by simpa using hd)
        · rintro ⟨h1, h2⟩
          refine ⟨by simpa using h1, ?_⟩
          intro j d hj hd
          exact h2 (j + 1) d (by omega) (by simpa using hd)
    · have hq : invokedCount selectedCmd client (c :: rest) = 1 := by
        simp [invokedCount, hst]
      rw [hq]
      constructor
      · intro hk
        have hk0 : k = 0 := by omega
        subst hk0
        simp
      · rintro ⟨_, h2⟩
        by_contra hk
        have h0 := h2 0 c (by omega) (by simp)
        rw [hst] at h0
        exact Bool.noConfusion h0

theorem dispatchError_eq (selectedCmd : String) (client : Option TunClient)
    (commands : List CLICommand) :
    dispatchError selectedCmd client commands =
      (commands[invokedCount selectedCmd client commands - 1]?).bind
        (fun c => (c.TryRun selectedCmd client).2) := by
  induction commands with
  | nil => simp [dispatchError, invokedCount]
  | cons c rest ih =>
    cases hst : stops (c.TryRun selectedCmd client)
    · have hq : invokedCount selectedCmd client (c :: rest)
          = invokedCount selectedCmd client rest + 1 := by
        simp [invokedCount, hst, Nat.add_min_add_right]
      have he : dispatchError selectedCmd client (c :: rest)
          = dispatchError selectedCmd client rest := by
        simp [dispatchError, hst]
      rw [hq, he, ih]
      rcases hn : invokedCount selectedCmd client rest with _ | n
      · have hnil : rest = [] := by
          cases rest with
          | nil => rfl
          | cons c2 r2 => simp [invokedCount] at hn
        subst hnil
        have h2 : (c.TryRun selectedCmd client).2 = none := by
          rcases hr : c.TryRun selectedCmd client with ⟨m, _ | e⟩
          · rfl
          · simp [stops, hr] at hst
        simp [h2]
      · simp
    · have hq : invokedCount selectedCmd client (c :: rest) = 1 := by
        simp [invokedCount, hst]
      simp [hq, dispatchError, hst]

theorem initEvents_quiet {FC : Type} (n : Nat) (ev : Event FC) (h : ev ∈ initEvents n) :
    Event.isNetwork ev = false ∧ Event.isCommand ev = false := by
  simp only [initEvents, List.mem_map] at h
  obtain ⟨k, _, rfl⟩ := h
  exact ⟨rfl, rfl⟩

theorem applyConfig_quiet {FC : Type} (env : Env FC) (ccf : GlobalCLIFlags)
    (w0 w : World FC) (r : Res (Option Error)) (h : applyConfig env ccf w0 = (r, w))
    (h0 : ∀ ev ∈ w0.calls, Event.isNetwork ev = false ∧ Event.isCommand ev = false) :
    ∀ ev ∈ w.calls, Event.isNetwork ev = false ∧ Event.isCommand ev = false := by
  obtain ⟨new, h1, h2⟩ := applyConfig_calls env ccf w0
  rw [h] at h1
  simp only at h1
  intro ev hev
  rw [h1] at hev
  rcases List.mem_append.1 hev with h | h
  · exact h0 ev h
  · exact h2 ev h

theorem applyConfig_file_irrelevant {FC : Type} (env : Env FC) (ccf : GlobalCLIFlags)
    (w : World FC) (fc fs : FC) (g : String → Except Error FC) (fc2 : FC)
    (hfile : env.ReadConfigFile ccf.ConfigFile = Except.ok fc)
    (hne : ccf.ConfigString ≠ "")
    (hstr : env.ReadFromString ccf.ConfigString = Except.ok fs)
    (hg : g ccf.ConfigFile = Except.ok fc2) :
    applyConfig { env with ReadConfigFile := g } ccf w = applyConfig env ccf w := by
  rcases hA : (env.ApplyFileConfig fs w.cfg).2 with _ | e <;>
  rcases hD : ccf.Debug <;>
  rcases hU : (env.ReadHostUUID (env.ApplyFileConfig fs w.cfg).1.DataDir).2 with _ | e2 <;>
  simp [applyConfig, config.ReadConfigFile, config.ReadFromString,
    config.ApplyFileConfig, utils.ReadHostUUID, utils.InitLogger, utils.FatalError,
    logrus.Debugf, os.Exit, run_bind, run_pure, Proc.bind, emit, getCfg, setCfg,
    hfile, hne, hstr, hA, hD, hU, hg]

theorem applyConfig_nil_sets_host_uuid {FC : Type} (env : Env FC) (ccf : GlobalCLIFlags)
    (w w1 : World FC) (h : applyConfig env ccf w = (Res.ret none, w1)) :
    (env.ReadHostUUID w1.cfg.DataDir).2 = none
      ∧ w1.cfg.HostUUID = (env.ReadHostUUID w1.cfg.DataDir).1
      ∧ Event.ReadHostUUID w1.cfg.DataDir ∈ w1.calls := by
  rcases hf : env.ReadConfigFile ccf.ConfigFile with e0 | fc
  · simp [applyConfig, config.ReadConfigFile, run_bind, Proc.bind, run_pure, emit, hf] at h
  · by_cases hs : ccf.ConfigString = ""
    · have hne : ¬ (ccf.ConfigString ≠ "") := not_not.2 hs
      simp only [applyConfig, config.ReadConfigFile, run_bind, Proc.bind, emit, run_pure, hf,
        hne, if_false] at h
      rcases hA : (env.ApplyFileConfig fc w.cfg).2 with _ | e <;>
      rcases hD : ccf.Debug <;>
      rcases hU : (env.ReadHostUUID (env.ApplyFileConfig fc w.cfg).1.DataDir).2 with _ | e2 <;>
      simp [config.ApplyFileConfig, utils.ReadHostUUID,
        utils.InitLogger, utils.FatalError, logrus.Debugf, os.Exit, run_bind, run_pure,
        Proc.bind, emit, getCfg, setCfg, hA, hD, hU] at h <;>
      subst h <;>
      simp [hU]
    · rcases hd : env.ReadFromString ccf.ConfigString with e1 | fs
      · simp [applyConfig, config.ReadConfigFile, config.ReadFromString, run_bind, Proc.bind,
          run_pure, emit, hf, hs, hd] at h
      · rcases hA : (env.ApplyFileConfig fs w.cfg).2 with _ | e <;>
        rcases hD : ccf.Debug <;>
        rcases hU : (env.ReadHostUUID (env.ApplyFileConfig fs w.cfg).1.DataDir).2 with _ | e2 <;>
        simp [applyConfig, config.ReadConfigFile, config.ReadFromString,
          config.ApplyFileConfig, utils.ReadHostUUID, utils.InitLogger, utils.FatalError,
          logrus.Debugf, os.Exit, run_bind, run_pure, Proc.bind, emit, getCfg, setCfg,
          hf, hs, hd, hA, hD, hU] at h <;>
        subst h <;>
        simp [hU]

/-! ## The claims -/

/-- C1: Run2 dispatch.  When the parser selects a command other than "version",
applyConfig returns and connectToAuthService returns a client without error,
Run2 calls TryRun on the modules in list order, each with the selected command
and that client; the modules called are exactly those with no module before
them answering match=true or an error (the first such module is the last one
called); if that module returned an error the process exits with status 1 after
reporting it, otherwise Run2 returns. -/
theorem Run2_dispatch_in_order {FC : Type} (env : Env FC) (d : String)
    (commands : List CLICommand) (args : List String) (w0 : World FC) (parsed : Parsed)
    (a : Option Error) (w : World FC) (client : Option TunClient) (w1 : World FC)
    (hparse : env.Parse args = Except.ok parsed)
    (hver : parsed.selectedCmd ≠ "version")
    (happ : applyConfig env parsed.ccf (Run2.parsedWorld commands args parsed w0)
      = (Res.ret a, w))
    (hconn : connectToAuthService env w = (Res.ret (client, none), w1)) :
    Run2 env d commands args w0 =
        (dispatchResult (dispatchError parsed.selectedCmd client commands),
          { w1 with calls := w1.calls ++
            ((List.range (invokedCount parsed.selectedCmd client commands)).map
                (fun k => Event.TryRun k parsed.selectedCmd client) ++
              fatalEvents (dispatchError parsed.selectedCmd client commands)) })
      ∧ (∀ k, k < invokedCount parsed.selectedCmd client commands ↔
          k < commands.length ∧ ∀ j c, j < k → commands[j]? = some c →
            c.TryRun parsed.selectedCmd client = (false, none))
      ∧ (∀ e, dispatchError parsed.selectedCmd client commands = some e ↔
          ∃ c, commands[invokedCount parsed.selectedCmd client commands - 1]? = some c ∧
            (c.TryRun parsed.selectedCmd client).2 = some e) := by
  refine ⟨?_, ?_, ?_⟩
  · rw [Run2_of_applyConfig env d commands args w0 parsed a w hparse hver happ, hconn]
    simp only []
    rw [dispatch_run]
    simp
  · intro k
    rw [lt_invokedCount_iff]
    constructor
    · rintro ⟨h1, h2⟩
      refine ⟨h1, fun j c hj hc => ?_⟩
      have h := h2 j c hj hc
      rcases hr : c.TryRun parsed.selectedCmd client with ⟨m, _ | e⟩ <;>
        simp [stops, hr] at h
      rw [h]
    · rintro ⟨h1, h2⟩
      refine ⟨h1, fun j c hj hc => ?_⟩
      simp [stops, h2 j c hj hc]
  · intro e
    rw [dispatchError_eq]
    cases commands[invokedCount parsed.selectedCmd client commands - 1]? <;> simp

/-- Witness for C1: three modules, "tokens ls" selected; the first module does
not match, the second matches, the third is never called. -/
theorem Run2_dispatch_in_order_witness :
    demoEnv.Parse ["tokens", "ls"] = Except.ok demoParsed
    ∧ demoParsed.selectedCmd ≠ "version"
    ∧ applyConfig demoEnv demoParsed.ccf
        (Run2.parsedWorld demoCommands ["tokens", "ls"] demoParsed demoStart)
          = (Res.ret none, demoApplied)
    ∧ connectToAuthService demoEnv demoApplied = (Res.ret (some ⟨1⟩, none), demoConnected)
    ∧ Run2 demoEnv "oss" demoCommands ["tokens", "ls"] demoStart =
        (Res.ret (), { demoConnected with calls := demoConnected.calls ++
          [Event.TryRun 0 "tokens ls" (some ⟨1⟩), Event.TryRun 1 "tokens ls" (some ⟨1⟩)] }) :=
  ⟨rfl, by decide, rfl, rfl,
    (Run2_dispatch_in_order demoEnv "oss" demoCommands ["tokens", "ls"] demoStart demoParsed
      none demoApplied (some ⟨1⟩) demoConnected rfl (by decide) rfl rfl).1⟩

/-- C2: version short-circuit.  When the parser selects "version", whatever the
global flags are, Run2 and Run print the version and return; the only calls
made are the logger set-up, the registrations (Run2), the parse and
PrintVersion: no applyConfig (no config file read, no host id read), no
ReadIdentity, no client construction or dial, no TryRun and no handler. -/
theorem version_short_circuit {FC : Type} (env : Env FC) (d : String)
    (commands : List CLICommand) (args : List String) (w0 : World FC) (parsed : Parsed)
    (hparse : env.Parse args = Except.ok parsed)
    (hver : parsed.selectedCmd = "version") :
    Run2 env d commands args w0 =
        (Res.ret (), { cfg := parsed.cfg, calls := w0.calls ++
          Event.InitLogger LogLevel.WarnLevel ::
            (initEvents commands.length ++ [Event.Parse args, Event.PrintVersion d]) })
      ∧ Run env d args w0 =
        (Res.ret (), { cfg := env.MakeDefaultConfig, calls := w0.calls ++
          [Event.InitLogger LogLevel.WarnLevel, Event.Parse args, Event.PrintVersion d] }) := by
  constructor
  · simp [Run2, run_bind, Proc.bind, utils.InitLogger, emit, setCfg, initializeAll_zero,
      app.Parse, hparse, hver, run_pure, utils.PrintVersion]
  · simp [Run, run_bind, Proc.bind, utils.InitLogger, emit, setCfg,
      app.Parse, hparse, hver, run_pure, utils.PrintVersion]

/-- Witness for C2: "version" with the debug flag and an undecodable config
string, on a host whose configuration file is malformed. -/
theorem version_short_circuit_witness :
    badFileEnv.Parse ["-d", "--config-string", "%%%", "version"] =
        Except.ok ⟨"version", { Debug := true, ConfigFile := "", ConfigString := "%%%" },
          demoCfg⟩
    ∧ Run2 badFileEnv "oss" demoCommands ["-d", "--config-string", "%%%", "version"] demoStart =
        (Res.ret (), { cfg := demoCfg, calls :=
          [Event.InitLogger LogLevel.WarnLevel, Event.Initialize 0, Event.Initialize 1,
            Event.Initialize 2, Event.Parse ["-d", "--config-string", "%%%", "version"],
            Event.PrintVersion "oss"] })
    ∧ Run badFileEnv "oss" ["-d", "--config-string", "%%%", "version"] demoStart =
        (Res.ret (), { cfg := demoCfg, calls :=
          [Event.InitLogger LogLevel.WarnLevel,
            Event.Parse ["-d", "--config-string", "%%%", "version"],
            Event.PrintVersion "oss"] }) :=
  ⟨rfl, version_short_circuit badFileEnv "oss" demoCommands
    ["-d", "--config-string", "%%%", "version"] demoStart
    ⟨"version", { Debug := true, ConfigFile := "", ConfigString := "%%%" }, demoCfg⟩ rfl rfl⟩

/-- C4: default-address fallback in connectToAuthService.  The server list
stored back in cfg.AuthServers is [defaults.AuthConnectAddr()] when the
configured list is empty and the configured list unchanged otherwise; whenever
identity loading succeeds, auth.NewTunClient is called, and every call of it
gets exactly that list; a returned error is the wrapped error of a failed
ReadIdentity or of a failed NewTunClient, never something else; and the
function never panics. -/
theorem connectToAuthService_default_address {FC : Type} (env : Env FC) (w : World FC) :
    (connectToAuthService env w).2.cfg.AuthServers =
        (if w.cfg.AuthServers = [] then [env.AuthConnectAddr] else w.cfg.AuthServers)
      ∧ (∃ new, (connectToAuthService env w).2.calls = w.calls ++ new
          ∧ (∀ p l u m, Event.NewTunClient p l u m ∈ new →
              l = (if w.cfg.AuthServers = [] then [env.AuthConnectAddr]
                else w.cfg.AuthServers))
          ∧ (∀ i, env.ReadIdentity w.cfg.DataDir
                { Role := teleport.RoleAdmin, HostUUID := w.cfg.HostUUID } = Except.ok i →
              Event.NewTunClient "tctl"
                (if w.cfg.AuthServers = [] then [env.AuthConnectAddr] else w.cfg.AuthServers)
                w.cfg.HostUUID [ssh.PublicKeys i.KeySigner] ∈ new))
      ∧ (∀ c err, (connectToAuthService env w).1 = Res.ret (c, some err) →
          c = none ∧
          ((∃ e0, env.ReadIdentity w.cfg.DataDir
                { Role := teleport.RoleAdmin, HostUUID := w.cfg.HostUUID } = Except.error e0
              ∧ err = trace.Wrap e0)
            ∨ (∃ i e0, env.ReadIdentity w.cfg.DataDir
                { Role := teleport.RoleAdmin, HostUUID := w.cfg.HostUUID } = Except.ok i
              ∧ env.NewTunClient "tctl"
                  (if w.cfg.AuthServers = [] then [env.AuthConnectAddr]
                    else w.cfg.AuthServers)
                  w.cfg.HostUUID [ssh.PublicKeys i.KeySigner] = Except.error e0
              ∧ err = trace.Wrap e0)))
      ∧ (connectToAuthService env w).1 ≠ Res.panic := by
  rcases hs : w.cfg.AuthServers with _ | ⟨s, ss⟩ <;>
  rcases hi : env.ReadIdentity w.cfg.DataDir
    { Role := teleport.RoleAdmin, HostUUID := w.cfg.HostUUID } with e0 | i <;>
  simp [connectToAuthService, auth.ReadIdentity, run_bind, Proc.bind, run_pure, emit, getCfg,
    setCfg, hs, hi]
  · rcases hn : env.NewTunClient "tctl" [env.AuthConnectAddr] w.cfg.HostUUID
      [ssh.PublicKeys i.KeySigner] with e1 | client
    · simp [auth.NewTunClient, run_bind, Proc.bind, run_pure, emit, hn]
      intro p l u m _ hl _ _
      exact hl
    · rcases hd : env.Dial client with _ | e2 <;>
      simp [auth.NewTunClient, TunClient.GetDialer, utils.Consolef, os.Exit, run_bind,
        Proc.bind, run_pure, emit, hn, hd] <;>
      intro p l u m _ hl _ _ <;>
      exact hl
  · rcases hn : env.NewTunClient "tctl" (s :: ss) w.cfg.HostUUID
      [ssh.PublicKeys i.KeySigner] with e1 | client
    · simp [auth.NewTunClient, run_bind, Proc.bind, run_pure, emit, hn]
      intro p l u m _ hl _ _
      exact hl
    · rcases hd : env.Dial client with _ | e2 <;>
      simp [auth.NewTunClient, TunClient.GetDialer, utils.Consolef, os.Exit, run_bind,
        Proc.bind, run_pure, emit, hn, hd] <;>
      intro p l u m _ hl _ _ <;>
      exact hl

/-- C7: liveness-probe failure is fatal.  When identity loading and client
construction succeed and the dial fails, the access cfg.AuthServers[0] is in
range, connectToAuthService returns nothing to its caller: it prints the
diagnostic with the address of that first entry and the process exits with
status 1; Run2 ends there with the same state, so that no TryRun follows. -/
theorem probe_failure_is_fatal {FC : Type} (env : Env FC) (w : World FC) (i : Identity)
    (client : TunClient) (e : Error)
    (hid : env.ReadIdentity w.cfg.DataDir
      { Role := teleport.RoleAdmin, HostUUID := w.cfg.HostUUID } = Except.ok i)
    (hnew : env.NewTunClient "tctl" (authServersUsed env w.cfg) w.cfg.HostUUID
      [ssh.PublicKeys i.KeySigner] = Except.ok client)
    (hdial : env.Dial client = some e) :
    ∃ first, (connectCfg env w.cfg).AuthServers[0]? = some first
      ∧ connectToAuthService env w =
        (Res.exit 1, { cfg := connectCfg env w.cfg, calls := w.calls ++
          [Event.ReadIdentity w.cfg.DataDir
              { Role := teleport.RoleAdmin, HostUUID := w.cfg.HostUUID },
            Event.NewTunClient "tctl" (authServersUsed env w.cfg) w.cfg.HostUUID
              [ssh.PublicKeys i.KeySigner],
            Event.GetDialer client,
            Event.Consolef e first.Addr] })
      ∧ ∀ (d : String) (commands : List CLICommand) (args : List String) (w0 : World FC)
          (parsed : Parsed) (a : Option Error),
          env.Parse args = Except.ok parsed → parsed.selectedCmd ≠ "version" →
          applyConfig env parsed.ccf (Run2.parsedWorld commands args parsed w0)
            = (Res.ret a, w) →
          Run2 env d commands args w0 =
            (Res.exit 1, { cfg := connectCfg env w.cfg, calls := w.calls ++
              [Event.ReadIdentity w.cfg.DataDir
                  { Role := teleport.RoleAdmin, HostUUID := w.cfg.HostUUID },
                Event.NewTunClient "tctl" (authServersUsed env w.cfg) w.cfg.HostUUID
                  [ssh.PublicKeys i.KeySigner],
                Event.GetDialer client,
                Event.Consolef e first.Addr] }) := by
  have hfirst : ∃ first, (connectCfg env w.cfg).AuthServers[0]? = some first := by
    rcases hs : w.cfg.AuthServers with _ | ⟨s, ss⟩ <;> simp [connectCfg, authServersUsed, hs]
  obtain ⟨first, hf⟩ := hfirst
  have hconn : connectToAuthService env w =
      (Res.exit 1, { cfg := connectCfg env w.cfg, calls := w.calls ++
        [Event.ReadIdentity w.cfg.DataDir
            { Role := teleport.RoleAdmin, HostUUID := w.cfg.HostUUID },
          Event.NewTunClient "tctl" (authServersUsed env w.cfg) w.cfg.HostUUID
            [ssh.PublicKeys i.KeySigner],
          Event.GetDialer client,
          Event.Consolef e first.Addr] }) := by
    rcases hs : w.cfg.AuthServers with _ | ⟨s, ss⟩ <;>
    simp [connectCfg, authServersUsed, hs] at hf hnew ⊢ <;>
    subst hf <;>
    simp [connectToAuthService, auth.ReadIdentity, auth.NewTunClient, TunClient.GetDialer,
      utils.Consolef, os.Exit, run_bind, Proc.bind, run_pure, emit, getCfg, setCfg, hs, hid,
      hnew, hdial]
  refine ⟨first, hf, hconn, ?_⟩
  intro d commands args w0 parsed a hparse hver happ
  rw [Run2_of_applyConfig env d commands args w0 parsed a w hparse hver happ, hconn]

/-- Witness for C7: the auth service does not answer; no server configured, so
the diagnostic names the default address. -/
theorem probe_failure_is_fatal_witness :
    probeFailEnv.ReadIdentity demoApplied.cfg.DataDir
        { Role := teleport.RoleAdmin, HostUUID := demoApplied.cfg.HostUUID }
          = Except.ok ⟨⟨"host-key"⟩⟩
    ∧ probeFailEnv.NewTunClient "tctl" (authServersUsed probeFailEnv demoApplied.cfg)
        demoApplied.cfg.HostUUID [ssh.PublicKeys ⟨"host-key"⟩] = Except.ok ⟨1⟩
    ∧ probeFailEnv.Dial ⟨1⟩ = some (Error.raw "connection refused")
    ∧ connectToAuthService probeFailEnv demoApplied =
        (Res.exit 1, { cfg := demoConnectedCfg, calls := demoApplied.calls ++
          (demoConnectCalls ++
            [Event.Consolef (Error.raw "connection refused") "127.0.0.1:3025"]) })
    ∧ Run2 probeFailEnv "oss" demoCommands ["tokens", "ls"] demoStart =
        (Res.exit 1, { cfg := demoConnectedCfg, calls := demoApplied.calls ++
          (demoConnectCalls ++
            [Event.Consolef (Error.raw "connection refused") "127.0.0.1:3025"]) }) := by
  obtain ⟨first, h0, h1, h2⟩ := probe_failure_is_fatal probeFailEnv demoApplied
    ⟨⟨"host-key"⟩⟩ ⟨1⟩ (Error.raw "connection refused") rfl rfl rfl
  have hfirst : first = ⟨"127.0.0.1:3025"⟩ := by
    have h : (some (⟨"127.0.0.1:3025"⟩ : NetAddr)) = some first := h0
    exact (Option.some.inj h).symm
  subst hfirst
  refine ⟨rfl, rfl, rfl, ?_, ?_⟩
  · rw [h1]
    rfl
  · rw [h2 "oss" demoCommands ["tokens", "ls"] demoStart demoParsed none rfl (by decide) rfl]
    rfl

/-- C8: identity-load failure never reaches the network.  When
auth.ReadIdentity(cfg.DataDir, {Role: admin, HostUUID: cfg.HostUUID}) fails,
connectToAuthService returns (nil, the wrapped error) after that single call:
no auth.NewTunClient, no dial.  Run2, and Run for every command that needs a
connection (all but "auth gen", for which connectToAuthService is not called),
then report the error and exit with status 1; counted from process start, the
log holds no client construction, no dial, no TryRun and no handler call. -/
theorem identity_failure_before_network {FC : Type} (env : Env FC) (w : World FC) (e : Error)
    (hid : env.ReadIdentity w.cfg.DataDir
      { Role := teleport.RoleAdmin, HostUUID := w.cfg.HostUUID } = Except.error e) :
    connectToAuthService env w =
        (Res.ret (none, some (trace.Wrap e)), { cfg := connectCfg env w.cfg, calls := w.calls ++
          [Event.ReadIdentity w.cfg.DataDir
            { Role := teleport.RoleAdmin, HostUUID := w.cfg.HostUUID }] })
      ∧ (∀ (d : String) (commands : List CLICommand) (args : List String) (w0 : World FC)
          (parsed : Parsed) (a : Option Error),
          env.Parse args = Except.ok parsed → parsed.selectedCmd ≠ "version" →
          applyConfig env parsed.ccf (Run2.parsedWorld commands args parsed w0)
            = (Res.ret a, w) →
          Run2 env d commands args w0 =
              (Res.exit 1, { cfg := connectCfg env w.cfg, calls := w.calls ++
                [Event.ReadIdentity w.cfg.DataDir
                    { Role := teleport.RoleAdmin, HostUUID := w.cfg.HostUUID },
                  Event.FatalError (trace.Wrap e)] })
            ∧ (w0.calls = [] → ∀ ev ∈ (Run2 env d commands args w0).2.calls,
                Event.isNetwork ev = false ∧ Event.isCommand ev = false))
      ∧ (∀ (d : String) (args : List String) (w0 : World FC)
          (parsed : Parsed) (a : Option Error),
          env.Parse args = Except.ok parsed → parsed.selectedCmd ≠ "version" →
          parsed.selectedCmd ≠ "auth gen" →
          applyConfig env parsed.ccf (Run.parsedWorld env args w0) = (Res.ret a, w) →
          Run env d args w0 =
              (Res.exit 1, { cfg := connectCfg env w.cfg, calls := w.calls ++
                [Event.ReadIdentity w.cfg.DataDir
                    { Role := teleport.RoleAdmin, HostUUID := w.cfg.HostUUID },
                  Event.FatalError (trace.Wrap e)] })
            ∧ (w0.calls = [] → ∀ ev ∈ (Run env d args w0).2.calls,
                Event.isNetwork ev = false ∧ Event.isCommand ev = false)) := by
  have hconn : connectToAuthService env w =
      (Res.ret (none, some (trace.Wrap e)), { cfg := connectCfg env w.cfg, calls := w.calls ++
        [Event.ReadIdentity w.cfg.DataDir
          { Role := teleport.RoleAdmin, HostUUID := w.cfg.HostUUID }] }) := by
    rcases hs : w.cfg.AuthServers with _ | ⟨s, ss⟩ <;>
    simp [connectToAuthService, auth.ReadIdentity, run_bind, Proc.bind, run_pure, emit, getCfg,
      setCfg, hs, hid, connectCfg, authServersUsed]
  refine ⟨hconn, ?_, ?_⟩
  · intro d commands args w0 parsed a hparse hver happ
    have hrun : Run2 env d commands args w0 =
        (Res.exit 1, { cfg := connectCfg env w.cfg, calls := w.calls ++
          [Event.ReadIdentity w.cfg.DataDir
              { Role := teleport.RoleAdmin, HostUUID := w.cfg.HostUUID },
            Event.FatalError (trace.Wrap e)] }) := by
      rw [Run2_of_applyConfig env d commands args w0 parsed a w hparse hver happ, hconn]
      simp
    refine ⟨hrun, ?_⟩
    intro hw0 ev hev
    have hq := applyConfig_quiet env parsed.ccf _ w _ happ (by
      intro ev hev
      simp only [Run2.parsedWorld, hw0, List.nil_append, List.mem_cons, List.mem_append,
        List.mem_singleton, List.not_mem_nil, or_false] at hev
      rcases hev with rfl | h | rfl
      · exact ⟨rfl, rfl⟩
      · exact initEvents_quiet _ ev h
      · exact ⟨rfl, rfl⟩)
    rw [hrun] at hev
    simp only [List.mem_append, List.mem_cons, List.mem_singleton, List.not_mem_nil,
      or_false] at hev
    rcases hev with h | rfl | rfl
    · exact hq ev h
    · exact ⟨rfl, rfl⟩
    · exact ⟨rfl, rfl⟩
  · intro d args w0 parsed a hparse hver hgen happ
    have hrun : Run env d args w0 =
        (Res.exit 1, { cfg := connectCfg env w.cfg, calls := w.calls ++
          [Event.ReadIdentity w.cfg.DataDir
              { Role := teleport.RoleAdmin, HostUUID := w.cfg.HostUUID },
            Event.FatalError (trace.Wrap e)] }) := by
      rw [Run_of_applyConfig env d args w0 parsed a w hparse hver hgen happ, hconn]
      simp
    refine ⟨hrun, ?_⟩
    intro hw0 ev hev
    have hq := applyConfig_quiet env parsed.ccf _ w _ happ (by
      intro ev hev
      simp only [Run.parsedWorld, hw0, List.nil_append, List.mem_cons,
        List.mem_singleton, List.not_mem_nil, or_false] at hev
      rcases hev with rfl | rfl
      · exact ⟨rfl, rfl⟩
      · exact ⟨rfl, rfl⟩)
    rw [hrun] at hev
    simp only [List.mem_append, List.mem_cons, List.mem_singleton, List.not_mem_nil,
      or_false] at hev
    rcases hev with h | rfl | rfl
    · exact hq ev h
    · exact ⟨rfl, rfl⟩
    · exact ⟨rfl, rfl⟩

/-- Witness for C8: the host has no identity on disk; "tokens ls" through Run2
and through Run. -/
theorem identity_failure_before_network_witness :
    noIdentityEnv.ReadIdentity demoApplied.cfg.DataDir
        { Role := teleport.RoleAdmin, HostUUID := demoApplied.cfg.HostUUID }
          = Except.error (Error.raw "identity not found")
    ∧ connectToAuthService noIdentityEnv demoApplied =
        (Res.ret (none, some (trace.Wrap (Error.raw "identity not found"))),
          { cfg := connectCfg noIdentityEnv demoApplied.cfg, calls := demoApplied.calls ++
            [Event.ReadIdentity "/var/lib/teleport" ⟨"Admin", "7c9d2a10"⟩] })
    ∧ Run2 noIdentityEnv "oss" demoCommands ["tokens", "ls"] demoStart =
        (Res.exit 1, { cfg := connectCfg noIdentityEnv demoApplied.cfg, calls := demoApplied.calls ++
            [Event.ReadIdentity "/var/lib/teleport" ⟨"Admin", "7c9d2a10"⟩,
              Event.FatalError (trace.Wrap (Error.raw "identity not found"))] })
    ∧ Run noIdentityEnv "oss" ["tokens", "ls"] demoStart =
        (Res.exit 1, { cfg := connectCfg noIdentityEnv demoAppliedRun.cfg, calls := demoAppliedRun.calls ++
            [Event.ReadIdentity "/var/lib/teleport" ⟨"Admin", "7c9d2a10"⟩,
              Event.FatalError (trace.Wrap (Error.raw "identity not found"))] }) :=
  ⟨rfl,
    (identity_failure_before_network noIdentityEnv demoApplied
      (Error.raw "identity not found") rfl).1,
    ((identity_failure_before_network noIdentityEnv demoApplied
      (Error.raw "identity not found") rfl).2.1 "oss" demoCommands ["tokens", "ls"] demoStart
        demoParsed none rfl (by decide) rfl).1,
    ((identity_failure_before_network noIdentityEnv demoAppliedRun
      (Error.raw "identity not found") rfl).2.2 "oss" ["tokens", "ls"] demoStart
        demoParsed none rfl (by decide) (by decide) rfl).1⟩

/-- C5: string config replaces file config in applyConfig.  Let the file read
succeed.  With an empty ConfigString the object handed to
config.ApplyFileConfig is the result of config.ReadConfigFile(ConfigFile).
With a non-empty ConfigString that decodes, the object handed over is the
result of config.ReadFromString(ConfigString); it is the only object applied,
it is applied to the cfg applyConfig was called with, and the whole outcome
(result, resolved cfg, log) is the same for every other successful file read. -/
theorem applyConfig_string_replaces_file {FC : Type} (env : Env FC) (ccf : GlobalCLIFlags)
    (w : World FC) (fc : FC)
    (hfile : env.ReadConfigFile ccf.ConfigFile = Except.ok fc) :
    (ccf.ConfigString = "" →
        ∃ rest uuid, (applyConfig env ccf w).2.calls = w.calls ++
            Event.ReadConfigFile ccf.ConfigFile :: Event.ApplyFileConfig fc :: rest
          ∧ (∀ x, Event.ApplyFileConfig x ∉ rest)
          ∧ (applyConfig env ccf w).2.cfg =
              { (env.ApplyFileConfig fc w.cfg).1 with HostUUID := uuid })
      ∧ (∀ fs, ccf.ConfigString ≠ "" → env.ReadFromString ccf.ConfigString = Except.ok fs →
          (∃ rest uuid, (applyConfig env ccf w).2.calls = w.calls ++
              Event.ReadConfigFile ccf.ConfigFile :: Event.ReadFromString ccf.ConfigString ::
                Event.ApplyFileConfig fs :: rest
            ∧ (∀ x, Event.ApplyFileConfig x ∉ rest)
            ∧ (applyConfig env ccf w).2.cfg =
                { (env.ApplyFileConfig fs w.cfg).1 with HostUUID := uuid })
          ∧ ∀ (g : String → Except Error FC) (fc2 : FC), g ccf.ConfigFile = Except.ok fc2 →
              applyConfig { env with ReadConfigFile := g } ccf w = applyConfig env ccf w) := by
  constructor
  · intro hs
    have hne : ¬ (ccf.ConfigString ≠ "") := not_not.2 hs
    simp only [applyConfig, config.ReadConfigFile, run_bind, Proc.bind, emit, run_pure, hfile,
      hne, if_false]
    rcases hA : (env.ApplyFileConfig fc w.cfg).2 with _ | e <;>
    rcases hD : ccf.Debug <;>
    rcases hU : (env.ReadHostUUID (env.ApplyFileConfig fc w.cfg).1.DataDir).2 with _ | e2 <;>
    simp [config.ApplyFileConfig, utils.ReadHostUUID,
      utils.InitLogger, utils.FatalError, logrus.Debugf, os.Exit, run_bind, run_pure,
      Proc.bind, emit, getCfg, setCfg, hA, hD, hU]
    all_goals exact ⟨(env.ApplyFileConfig fc w.cfg).1.HostUUID, rfl⟩
  · intro fs hne hstr
    constructor
    · rcases hA : (env.ApplyFileConfig fs w.cfg).2 with _ | e <;>
      rcases hD : ccf.Debug <;>
      rcases hU : (env.ReadHostUUID (env.ApplyFileConfig fs w.cfg).1.DataDir).2 with _ | e2 <;>
      simp [applyConfig, config.ReadConfigFile, config.ReadFromString,
        config.ApplyFileConfig, utils.ReadHostUUID, utils.InitLogger, utils.FatalError,
        logrus.Debugf, os.Exit, run_bind, run_pure, Proc.bind, emit, getCfg, setCfg,
        hfile, hne, hstr, hA, hD, hU]
      all_goals exact ⟨(env.ApplyFileConfig fs w.cfg).1.HostUUID, rfl⟩
    · intro g fc2 hg
      exact applyConfig_file_irrelevant env ccf w fc fs g fc2 hfile hne hstr hg

/-- Witness for C5: a config string and no config file (the string's config,
number 1, is applied and another file content changes nothing), and no config
string (the file's config, number 0, is applied). -/
theorem applyConfig_string_replaces_file_witness :
    demoEnv.ReadConfigFile stringOnlyFlags.ConfigFile = Except.ok 0
    ∧ stringOnlyFlags.ConfigString ≠ ""
    ∧ demoEnv.ReadFromString stringOnlyFlags.ConfigString = Except.ok 1
    ∧ (∃ rest uuid, (applyConfig demoEnv stringOnlyFlags demoStart).2.calls = demoStart.calls ++
          Event.ReadConfigFile "" :: Event.ReadFromString "dGVsZXBvcnQ=" ::
            Event.ApplyFileConfig 1 :: rest
        ∧ (∀ x, Event.ApplyFileConfig x ∉ rest)
        ∧ (applyConfig demoEnv stringOnlyFlags demoStart).2.cfg =
            { (demoEnv.ApplyFileConfig 1 demoStart.cfg).1 with HostUUID := uuid })
    ∧ applyConfig { demoEnv with ReadConfigFile := fun _ => Except.ok 7 } stringOnlyFlags
        demoStart = applyConfig demoEnv stringOnlyFlags demoStart
    ∧ (∃ rest uuid, (applyConfig demoEnv demoFlags demoStart).2.calls = demoStart.calls ++
          Event.ReadConfigFile "" :: Event.ApplyFileConfig 0 :: rest
        ∧ (∀ x, Event.ApplyFileConfig x ∉ rest)
        ∧ (applyConfig demoEnv demoFlags demoStart).2.cfg =
            { (demoEnv.ApplyFileConfig 0 demoStart.cfg).1 with HostUUID := uuid }) :=
  ⟨rfl, by decide, rfl,
    ((applyConfig_string_replaces_file demoEnv stringOnlyFlags demoStart 0 rfl).2 1
      (by decide) rfl).1,
    ((applyConfig_string_replaces_file demoEnv stringOnlyFlags demoStart 0 rfl).2 1
      (by decide) rfl).2 (fun _ => Except.ok 7) 7 rfl,
    (applyConfig_string_replaces_file demoEnv demoFlags demoStart 0 rfl).1 rfl⟩

/-- C10 as stated fails: with an empty ConfigFile and a valid config string,
applyConfig still calls config.ReadConfigFile (with the empty path), and when
the default file is malformed it returns that error: the string is not decoded
and the outcome differs from the one with a readable file. -/
theorem applyConfig_string_only_reads_file :
    stringOnlyFlags.ConfigFile = ""
    ∧ stringOnlyFlags.ConfigString ≠ ""
    ∧ badFileEnv.ReadFromString stringOnlyFlags.ConfigString = Except.ok 1
    ∧ applyConfig badFileEnv stringOnlyFlags demoStart =
        (Res.ret (some (trace.Wrap (Error.raw "yaml: line 1"))),
          { cfg := demoCfg, calls := [Event.ReadConfigFile ""] })
    ∧ applyConfig demoEnv stringOnlyFlags demoStart =
        (Res.ret none,
          { cfg := { demoCfg with AuthServers := [⟨"10.0.0.5:3025"⟩], HostUUID := "7c9d2a10" },
            calls := [Event.ReadConfigFile "", Event.ReadFromString "dGVsZXBvcnQ=",
              Event.ApplyFileConfig 1, Event.ReadHostUUID "/var/lib/teleport"] }) :=
  ⟨rfl, by decide, rfl, rfl, rfl⟩

/-- C10 amended: with an empty ConfigFile and a valid non-empty ConfigString,
applyConfig first calls config.ReadConfigFile with the empty path; if that call
fails, applyConfig returns its error wrapped, with cfg untouched and nothing
else called; if it succeeds, the value read is not used: the outcome is the
same for every other successful file read. -/
theorem applyConfig_string_only {FC : Type} (env : Env FC) (ccf : GlobalCLIFlags)
    (w : World FC) (fs : FC)
    (hfile : ccf.ConfigFile = "")
    (hne : ccf.ConfigString ≠ "")
    (hstr : env.ReadFromString ccf.ConfigString = Except.ok fs) :
    (∃ rest, (applyConfig env ccf w).2.calls = w.calls ++ Event.ReadConfigFile "" :: rest)
      ∧ (∀ e, env.ReadConfigFile "" = Except.error e →
          applyConfig env ccf w =
            (Res.ret (some (trace.Wrap e)),
              { w with calls := w.calls ++ [Event.ReadConfigFile ""] }))
      ∧ (∀ (fc : FC) (g : String → Except Error FC) (fc2 : FC),
          env.ReadConfigFile "" = Except.ok fc → g "" = Except.ok fc2 →
          applyConfig { env with ReadConfigFile := g } ccf w = applyConfig env ccf w) := by
  refine ⟨?_, ?_, ?_⟩
  · obtain ⟨new, h1, _⟩ := applyConfig_calls env ccf w
    rcases hf : env.ReadConfigFile "" with e0 | fc
    · exact ⟨[], by
        simp [applyConfig, config.ReadConfigFile, run_bind, Proc.bind, run_pure, emit, hfile, hf]⟩
    · rcases hA : (env.ApplyFileConfig fs w.cfg).2 with _ | e <;>
      rcases hD : ccf.Debug <;>
      rcases hU : (env.ReadHostUUID (env.ApplyFileConfig fs w.cfg).1.DataDir).2 with _ | e2 <;>
      simp [applyConfig, config.ReadConfigFile, config.ReadFromString,
        config.ApplyFileConfig, utils.ReadHostUUID, utils.InitLogger, utils.FatalError,
        logrus.Debugf, os.Exit, run_bind, run_pure, Proc.bind, emit, getCfg, setCfg,
        hfile, hf, hne, hstr, hA, hD, hU]
  · intro e he
    simp [applyConfig, config.ReadConfigFile, run_bind, Proc.bind, run_pure, emit, hfile, he]
  · intro fc g fc2 hf hg
    exact applyConfig_file_irrelevant env ccf w fc fs g fc2 (by rw [hfile]; exact hf) hne hstr
      (by rw [hfile]; exact hg)

/-- Witness for the amended C10: a config string and no config file, once with
a malformed default file and once with a readable one. -/
theorem applyConfig_string_only_witness :
    stringOnlyFlags.ConfigFile = ""
    ∧ stringOnlyFlags.ConfigString ≠ ""
    ∧ badFileEnv.ReadFromString stringOnlyFlags.ConfigString = Except.ok 1
    ∧ applyConfig badFileEnv stringOnlyFlags demoStart =
        (Res.ret (some (trace.Wrap (Error.raw "yaml: line 1"))),
          { demoStart with calls := demoStart.calls ++ [Event.ReadConfigFile ""] })
    ∧ applyConfig { demoEnv with ReadConfigFile := fun _ => Except.ok 7 } stringOnlyFlags
        demoStart = applyConfig demoEnv stringOnlyFlags demoStart :=
  ⟨rfl, by decide, rfl,
    (applyConfig_string_only badFileEnv stringOnlyFlags demoStart 1 rfl (by decide) rfl).2.1
      (Error.raw "yaml: line 1") rfl,
    (applyConfig_string_only demoEnv stringOnlyFlags demoStart 1 rfl (by decide) rfl).2.2
      0 (fun _ => Except.ok 7) 7 rfl rfl⟩

/-- C6 as stated fails: the file config sets the data directory, the string
config leaves it absent and sets the auth servers; both are valid.  The
resolved RuntimeConfig has the string's auth servers, and its data directory is
the default one, not the file config's "/srv/teleport". -/
theorem string_config_drops_file_fields :
    bothConfigsEnv.ReadConfigFile bothFlags.ConfigFile = Except.ok fileSetsDataDir
    ∧ bothConfigsEnv.ReadFromString bothFlags.ConfigString = Except.ok stringSetsServers
    ∧ fileSetsDataDir.DataDir = some "/srv/teleport"
    ∧ stringSetsServers.DataDir = none
    ∧ (applyConfig bothConfigsEnv bothFlags specStart).1 = Res.ret none
    ∧ (applyConfig bothConfigsEnv bothFlags specStart).2.cfg.AuthServers = [⟨"10.0.0.5:3025"⟩]
    ∧ (applyConfig bothConfigsEnv bothFlags specStart).2.cfg.DataDir = "/var/lib/teleport"
    ∧ (applyConfig bothConfigsEnv bothFlags specStart).2.cfg.DataDir ≠ "/srv/teleport" :=
  ⟨rfl, rfl, rfl, rfl, rfl, rfl, rfl, by decide⟩

/-- C6 amended: when a valid file config and a valid string config are both
present, the string config replaces the file config as a whole.  With
ApplyFileConfig the field-by-field merge, the resolved RuntimeConfig takes, for
each field, the string config's value when the string config sets that field,
and a field the string config leaves absent keeps the value the RuntimeConfig
had before applyConfig, whatever the file config sets. -/
theorem applyConfig_string_config_wins_whole (env : Env SpecFileConfig)
    (ccf : GlobalCLIFlags) (w : World SpecFileConfig) (fc fs : SpecFileConfig)
    (happly : env.ApplyFileConfig = specApplyFileConfig)
    (hfile : env.ReadConfigFile ccf.ConfigFile = Except.ok fc)
    (hne : ccf.ConfigString ≠ "")
    (hstr : env.ReadFromString ccf.ConfigString = Except.ok fs) :
    (∀ v, fs.AuthServers = some v → (applyConfig env ccf w).2.cfg.AuthServers = v)
      ∧ (fs.AuthServers = none →
          (applyConfig env ccf w).2.cfg.AuthServers = w.cfg.AuthServers)
      ∧ (∀ v, fs.DataDir = some v → (applyConfig env ccf w).2.cfg.DataDir = v)
      ∧ (fs.DataDir = none → (applyConfig env ccf w).2.cfg.DataDir = w.cfg.DataDir) := by
  have hA : (env.ApplyFileConfig fs w.cfg).2 = none := by rw [happly]; rfl
  have hcfg : (applyConfig env ccf w).2.cfg.AuthServers = fs.AuthServers.getD w.cfg.AuthServers
      ∧ (applyConfig env ccf w).2.cfg.DataDir = fs.DataDir.getD w.cfg.DataDir := by
    rcases hD : ccf.Debug <;>
    rcases hU : (env.ReadHostUUID (env.ApplyFileConfig fs w.cfg).1.DataDir).2 with _ | e2 <;>
    simp [applyConfig, config.ReadConfigFile, config.ReadFromString,
      config.ApplyFileConfig, utils.ReadHostUUID, utils.InitLogger, utils.FatalError,
      logrus.Debugf, os.Exit, run_bind, run_pure, Proc.bind, emit, getCfg, setCfg,
      hfile, hne, hstr, hA, hD, hU] <;>
    simp [happly, specApplyFileConfig]
  obtain ⟨h1, h2⟩ := hcfg
  refine ⟨?_, ?_, ?_, ?_⟩
  · intro v hv
    rw [h1, hv]
    rfl
  · intro hv
    rw [h1, hv]
    rfl
  · intro v hv
    rw [h2, hv]
    rfl
  · intro hv
    rw [h2, hv]
    rfl

/-- Witness for the amended C6: the file sets the data directory, the string
sets the auth servers. -/
theorem applyConfig_string_config_wins_whole_witness :
    bothConfigsEnv.ApplyFileConfig = specApplyFileConfig
    ∧ bothConfigsEnv.ReadConfigFile bothFlags.ConfigFile = Except.ok fileSetsDataDir
    ∧ bothFlags.ConfigString ≠ ""
    ∧ bothConfigsEnv.ReadFromString bothFlags.ConfigString = Except.ok stringSetsServers
    ∧ (applyConfig bothConfigsEnv bothFlags specStart).2.cfg.AuthServers = [⟨"10.0.0.5:3025"⟩]
    ∧ (applyConfig bothConfigsEnv bothFlags specStart).2.cfg.DataDir = specStart.cfg.DataDir :=
  ⟨rfl, rfl, by decide, rfl,
    (applyConfig_string_config_wins_whole bothConfigsEnv bothFlags specStart fileSetsDataDir
      stringSetsServers rfl rfl (by decide) rfl).1 [⟨"10.0.0.5:3025"⟩] rfl,
    (applyConfig_string_config_wins_whole bothConfigsEnv bothFlags specStart fileSetsDataDir
      stringSetsServers rfl rfl (by decide) rfl).2.2.2 rfl⟩

/-- C3, the code at a failing input: "--config-string %%% tokens ls".  The
string does not decode, applyConfig returns the wrapped error, and both Run2
and Run drop it: the identity is read, the client is built and dialled, the
command runs (TryRun on two modules, the tokens handler) and the process
returns normally, with no fatal error reported. -/
theorem config_failure_is_dropped :
    demoEnv.Parse ["--config-string", "%%%", "tokens", "ls"] =
        Except.ok ⟨"tokens ls", { demoFlags with ConfigString := "%%%" }, demoCfg⟩
    ∧ (applyConfig demoEnv { demoFlags with ConfigString := "%%%" } demoStart).1 =
        Res.ret (some (trace.Wrap (Error.raw "illegal base64 data")))
    ∧ Run2 demoEnv "oss" demoCommands ["--config-string", "%%%", "tokens", "ls"] demoStart =
        (Res.ret (), { cfg := { demoConnectedCfg with HostUUID := "" }, calls :=
          [Event.InitLogger LogLevel.WarnLevel, Event.Initialize 0, Event.Initialize 1,
            Event.Initialize 2, Event.Parse ["--config-string", "%%%", "tokens", "ls"],
            Event.ReadConfigFile "", Event.ReadFromString "%%%",
            Event.ReadIdentity "/var/lib/teleport" ⟨"Admin", ""⟩,
            Event.NewTunClient "tctl" [⟨"127.0.0.1:3025"⟩] ""
              [AuthMethod.PublicKeys ⟨"host-key"⟩],
            Event.GetDialer ⟨1⟩,
            Event.TryRun 0 "tokens ls" (some ⟨1⟩), Event.TryRun 1 "tokens ls" (some ⟨1⟩)] })
    ∧ Run demoEnv "oss" ["--config-string", "%%%", "tokens", "ls"] demoStart =
        (Res.ret (), { cfg := { demoConnectedCfg with HostUUID := "" }, calls :=
          [Event.InitLogger LogLevel.WarnLevel,
            Event.Parse ["--config-string", "%%%", "tokens", "ls"],
            Event.ReadConfigFile "", Event.ReadFromString "%%%",
            Event.ReadIdentity "/var/lib/teleport" ⟨"Admin", ""⟩,
            Event.NewTunClient "tctl" [⟨"127.0.0.1:3025"⟩] ""
              [AuthMethod.PublicKeys ⟨"host-key"⟩],
            Event.GetDialer ⟨1⟩,
            Event.Handler Handler.TokensList (some ⟨1⟩)] }) :=
  ⟨rfl, rfl, rfl, rfl⟩

/-- C9, the code at a failing input: "--config-string %%% tokens ls".
applyConfig returns before the host id is read and its error is dropped, so
identity loading is reached with cfg.HostUUID still the unset default "":
ReadIdentity is called with the empty host id, ReadHostUUID is not called at
all although it would have succeeded, and cfg.HostUUID is "" to the end. -/
theorem host_uuid_unset_at_identity_load :
    demoEnv.ReadHostUUID "/var/lib/teleport" = ("7c9d2a10", none)
    ∧ Event.ReadIdentity "/var/lib/teleport" ⟨"Admin", ""⟩ ∈
        (Run2 demoEnv "oss" demoCommands ["--config-string", "%%%", "tokens", "ls"]
          demoStart).2.calls
    ∧ Event.ReadHostUUID "/var/lib/teleport" ∉
        (Run2 demoEnv "oss" demoCommands ["--config-string", "%%%", "tokens", "ls"]
          demoStart).2.calls
    ∧ (Run2 demoEnv "oss" demoCommands ["--config-string", "%%%", "tokens", "ls"]
          demoStart).2.cfg.HostUUID = ""
    ∧ Event.ReadIdentity "/var/lib/teleport" ⟨"Admin", ""⟩ ∈
        (Run demoEnv "oss" ["--config-string", "%%%", "tokens", "ls"] demoStart).2.calls
    ∧ Event.ReadHostUUID "/var/lib/teleport" ∉
        (Run demoEnv "oss" ["--config-string", "%%%", "tokens", "ls"] demoStart).2.calls
    ∧ (Run demoEnv "oss" ["--config-string", "%%%", "tokens", "ls"]
          demoStart).2.cfg.HostUUID = "" := by
  refine ⟨rfl, ?_, ?_, rfl, ?_, ?_, rfl⟩ <;> decide

end Tctl
